import Mathlib

/-!
# Verification of `verify_color_conversion.py`

A shallow embedding of the LIFX color-conversion demonstration script.
The script computes, for a fixed list of hue degree samples and a fixed
table of named colors, an "old" conversion (`int(deg * 182.0)`) and a
"correct" conversion (`int((deg * (65536/360)) % 65536)`) of hue degrees
into the 16-bit LIFX hue representation, and prints a formatted report.

Numeric semantics: the script's arithmetic is Python float arithmetic.
We model it with exact rational arithmetic (ℚ).  For every input the
script actually uses (integers `0 ≤ d ≤ 360`), the double-precision
products differ from the exact rationals by far less than the distance
to the nearest truncation or rounding boundary (the fractional parts of
`d * 65536/360` are multiples of `1/45`, and `360 * fl(65536/360)`
rounds to exactly `65536.0`), so the exact-rational model yields the
same integer outputs as the script.

`int(x)` on a float truncates toward zero; `x % y` on floats (positive
`y`) is the floored modulus `x - y * ⌊x / y⌋`.
-/

namespace VerifyColorConversion

/-- Python `int(x)` on a rational: truncation toward zero
(`Int.div` is T-division). -/
def pyInt (q : ℚ) : ℤ := Int.tdiv q.num q.den

/-- Python `x % y` for positive `y`: floored modulus `x - y * ⌊x / y⌋`. -/
def pyMod (x y : ℚ) : ℚ := x - y * ⌊x / y⌋

/-- `original_factor = 182.0` (the original magic number). -/
def original_factor : ℚ := 182

/-- `factor_65535 = 65535 / 360` (using 0xFFFF). -/
def factor_65535 : ℚ := 65535 / 360

/-- `factor_65536 = 65536 / 360` (using 0x10000, LIFX recommended). -/
def factor_65536 : ℚ := 65536 / 360

/-- `test_degrees = [0, 60, 120, 180, 240, 300, 360]`. -/
def test_degrees : List ℤ := [0, 60, 120, 180, 240, 300, 360]

/-- `old_value = int(deg * original_factor)`. -/
def old_value (deg : ℤ) : ℤ := pyInt ((deg : ℚ) * original_factor)

/-- `correct_value = int((deg * factor_65536) % 65536)` (comparison loop,
line 34).  The modulo is applied to the product, and `int` truncates the
result of the modulo. -/
def correct_value (deg : ℤ) : ℤ := pyInt (pyMod ((deg : ℚ) * factor_65536) 65536)

/-- `diff = correct_value - old_value`. -/
def diff (deg : ℤ) : ℤ := correct_value deg - old_value deg

/-- The operand of the `% 65536` operation in
`int((deg * factor_65536) % 65536)`: the raw floating product. -/
def modOperand (deg : ℤ) : ℚ := (deg : ℚ) * factor_65536

/-- The operand of the `int(...)` truncation in
`int((deg * factor_65536) % 65536)`: the post-modulo value. -/
def truncOperand (deg : ℤ) : ℚ := pyMod (modOperand deg) 65536

/-- The named-color table (a Python dict literal; insertion order is
preserved by Python dicts and drives the display order). -/
def colors : List (String × ℤ) :=
  [("Red", 0), ("Orange", 39), ("Yellow", 60), ("Green", 120),
   ("Cyan", 180), ("Blue", 240), ("Purple", 275), ("Pink", 350)]

/-- `lifx_value = int((degrees * factor_65536) % 65536)` (named-color
loop, line 63). -/
def lifx_value (degrees : ℤ) : ℤ := pyInt (pyMod ((degrees : ℚ) * factor_65536) 65536)

/-- All degree inputs the program feeds into the corrected conversion:
the comparison samples and the named-color degrees. -/
def usedDegrees : List ℤ := test_degrees ++ colors.map Prod.snd

end VerifyColorConversion

namespace VerifyColorConversion

/-! ## String rendering (Python format specifiers) -/

/-- `{x:<w}`: left-align in a field of width `w`, padding with spaces. -/
def padRight (s : String) (w : ℕ) : String :=
  s ++ String.mk (List.replicate (w - s.length) ' ')

/-- `{x:>w}`: right-align in a field of width `w`, padding with spaces. -/
def padLeft (s : String) (w : ℕ) : String :=
  String.mk (List.replicate (w - s.length) ' ') ++ s

/-- Pad a digit string on the left with zeros to width `w`. -/
def padZeros (s : String) (w : ℕ) : String :=
  String.mk (List.replicate (w - s.length) '0') ++ s

/-- `{n:+d}`: signed decimal, an explicit `+` for non-negative values
(`toString` already renders the `-` of a negative integer). -/
def formatSignedInt (n : ℤ) : String :=
  if 0 ≤ n then "+" ++ toString n else toString n

/-- An uppercase hexadecimal digit (`0`–`9`, `A`–`F`). -/
def hexDigitChar (n : ℕ) : Char :=
  if n < 10 then Char.ofNat (48 + n) else Char.ofNat (55 + n)

/-- `{n:04X}` for `n < 65536`: four uppercase hex digits, zero-padded. -/
def toHex4 (n : ℕ) : String :=
  String.mk [hexDigitChar (n / 4096 % 16), hexDigitChar (n / 256 % 16),
             hexDigitChar (n / 16 % 16), hexDigitChar (n % 16)]

/-- The hex rendering `0x{lifx_value:04X}` of a named color's value. -/
def lifxHex (degrees : ℤ) : String := "0x" ++ toHex4 (lifx_value degrees).toNat

/-- `{q:.10f}`: fixed-point rendering with ten decimal places, rounding
half away from zero (for the two factor values printed, the eleventh
decimal digit is never `5`, so every tie-breaking rule agrees). -/
def format10f (q : ℚ) : String :=
  let scaled : ℤ := ⌊q * 10000000000 + 1 / 2⌋
  toString (scaled / 10000000000) ++ "." ++ padZeros (toString (scaled % 10000000000)) 10

/-- One row of the comparison table:
`f"{deg:<10} {old_value:<15} {correct_value:<20} {diff:+d}"`. -/
def comparisonRow (deg : ℤ) : String :=
  padRight (toString deg) 10 ++ " " ++ padRight (toString (old_value deg)) 15 ++ " " ++
    padRight (toString (correct_value deg)) 20 ++ " " ++ formatSignedInt (diff deg)

/-- One row of the named-color table:
`f"{name:<10} {degrees:>3}° → {lifx_value:>5} (0x{lifx_value:04X})"`. -/
def colorRow (p : String × ℤ) : String :=
  padRight p.1 10 ++ " " ++ padLeft (toString p.2) 3 ++ "° → " ++
    padLeft (toString (lifx_value p.2)) 5 ++ " (" ++ lifxHex p.2 ++ ")"

/-- The rows of the named-color table, in the dict's insertion order. -/
def namedColorRows : List String := colors.map colorRow

/-- Python `str` of a float with integral value (`182.0` → `"182.0"`). -/
def pyFloatStr (q : ℚ) : String := toString q.num ++ ".0"

/-- A dashed separator line, `"-" * 50`. -/
def dash50 : String := String.mk (List.replicate 50 '-')

/-- The header row of the comparison table. -/
def tableHeader : String :=
  padRight "Degrees" 10 ++ " " ++ padRight "Old (182.0)" 15 ++ " " ++
    padRight "Correct (65536/360)" 20 ++ " " ++ "Difference"

/-- The complete standard output of the script, one entry per printed
line (an empty `print()` is an empty line). -/
def programOutput : List String :=
  ["LIFX Color Conversion Factor Analysis",
   String.mk (List.replicate 50 '='),
   "Original magic number: " ++ pyFloatStr original_factor,
   "65535 / 360 = " ++ format10f factor_65535,
   "65536 / 360 = " ++ format10f factor_65536,
   "",
   "Conversion comparison for various hue values:",
   dash50,
   tableHeader,
   dash50] ++
  test_degrees.map comparisonRow ++
  ["",
   "Explanation:",
   "- The magic number 182.0 was an approximation of 65535/360 = 182.04166...",
   "- However, LIFX documentation recommends using 65536/360 = 182.04444...",
   "- This provides better rounding behavior and wrapping at 360 degrees",
   "- The difference is small but can accumulate in color transitions",
   "",
   "Named colors in LIFX u16 format:",
   dash50] ++
  namedColorRows

/-- The ambient state a process could observe: command-line arguments,
environment variables, standard input, a clock and a random seed.  The
script reads none of these. -/
structure World where
  argv : List String
  env : List (String × String)
  stdinData : String
  clock : ℕ
  randomSeed : ℕ

/-- Running the script in a world: `main()` consumes nothing from the
world and emits `programOutput`. -/
def run (_w : World) : List String := programOutput

end VerifyColorConversion

namespace VerifyColorConversion

/-! ## General lemmas about the numeric model -/

/-- `int(x)` agrees with the floor on non-negative values. -/
theorem pyInt_eq_floor {q : ℚ} (hq : 0 ≤ q) : pyInt q = ⌊q⌋ := by
  rw [pyInt, Rat.floor_def,
    Int.tdiv_eq_ediv (Rat.num_nonneg.mpr hq) (Int.ofNat_nonneg q.den)]

/-- Floor division of a rational by a positive integer agrees with
integer (Euclidean) division of its floor. -/
theorem floor_div_int (q : ℚ) (n : ℤ) (hn : 0 < n) :
    ⌊q / (n : ℚ)⌋ = ⌊q⌋ / n := by
  have hn' : (0 : ℚ) < (n : ℚ) := by exact_mod_cast hn
  rw [Int.floor_eq_iff]
  constructor
  · rw [le_div_iff₀ hn']
    calc ((⌊q⌋ / n : ℤ) : ℚ) * (n : ℚ) = ((⌊q⌋ / n * n : ℤ) : ℚ) := by push_cast; ring
      _ ≤ ((⌊q⌋ : ℤ) : ℚ) := by exact_mod_cast Int.ediv_mul_le ⌊q⌋ (ne_of_gt hn)
      _ ≤ q := Int.floor_le q
  · rw [div_lt_iff₀ hn']
    have h2 : ⌊q⌋ + 1 ≤ ⌊q⌋ / n * n + n := by
      have hmod := Int.emod_lt_of_pos ⌊q⌋ hn
      have hdm := Int.ediv_add_emod ⌊q⌋ n
      have hcomm : n * (⌊q⌋ / n) = ⌊q⌋ / n * n := mul_comm _ _
      omega
    calc q < ⌊q⌋ + 1 := Int.lt_floor_add_one q
      _ ≤ ((⌊q⌋ / n * n + n : ℤ) : ℚ) := by exact_mod_cast h2
      _ = ((⌊q⌋ / n : ℤ) : ℚ) * (n : ℚ) + (n : ℚ) := by push_cast; ring
      _ = (((⌊q⌋ / n : ℤ) : ℚ) + 1) * (n : ℚ) := by ring

/-- The floored modulus is non-negative for a positive modulus. -/
theorem pyMod_nonneg (q : ℚ) {n : ℚ} (hn : 0 < n) : 0 ≤ pyMod q n := by
  rw [pyMod, sub_nonneg]
  calc n * (⌊q / n⌋ : ℚ) ≤ n * (q / n) :=
        mul_le_mul_of_nonneg_left (Int.floor_le _) (le_of_lt hn)
    _ = q := by field_simp

/-- Floor after the floored modulus equals integer `emod` after floor. -/
theorem floor_pyMod (q : ℚ) : ⌊pyMod q 65536⌋ = ⌊q⌋ % 65536 := by
  rw [pyMod]
  have hcast : (65536 : ℚ) * (⌊q / 65536⌋ : ℚ) = ((65536 * ⌊q / 65536⌋ : ℤ) : ℚ) := by
    push_cast; ring
  rw [hcast, Int.floor_sub_int]
  have hdiv : ⌊q / (65536 : ℚ)⌋ = ⌊q⌋ / (65536 : ℤ) := by
    have h := floor_div_int q 65536 (by norm_num)
    simpa using h
  rw [hdiv, Int.emod_def]

/-- The corrected conversion computes `⌊deg * 65536/360⌋ mod 65536`. -/
theorem correct_value_eq_floor_emod (deg : ℤ) :
    correct_value deg = ⌊(deg : ℚ) * factor_65536⌋ % 65536 := by
  rw [correct_value, pyInt_eq_floor (pyMod_nonneg _ (by norm_num)), floor_pyMod]

end VerifyColorConversion

namespace VerifyColorConversion

/-! ## Claims -/

/-- C1: for every degree sample `d` in {0, 60, 120, 180, 240, 300, 360},
`correct_value d` equals `⌊d * 65536/360⌋ mod 65536`, and the value lies
in the range [0, 65535]. -/
theorem c1_correct_value_samples :
    ∀ d ∈ test_degrees,
      correct_value d = ⌊(d : ℚ) * (65536 / 360)⌋ % 65536 ∧
      0 ≤ correct_value d ∧ correct_value d ≤ 65535 := by
  intro d _
  refine ⟨correct_value_eq_floor_emod d, ?_, ?_⟩
  · rw [correct_value_eq_floor_emod]
    exact Int.emod_nonneg _ (by norm_num)
  · rw [correct_value_eq_floor_emod]
    have h := Int.emod_lt_of_pos ⌊(d : ℚ) * factor_65536⌋ (b := 65536) (by norm_num)
    omega

theorem c1_correct_value_samples_witness :
    correct_value 180 = ⌊(180 : ℚ) * (65536 / 360)⌋ % 65536 ∧
    0 ≤ correct_value 180 ∧ correct_value 180 ≤ 65535 :=
  c1_correct_value_samples 180 (by decide)

/-- C2 counterexample: the script computes
`int((deg * factor_65536) % 65536)`, so the `% 65536` is applied to the
raw floating product, not to a truncated integer, and `int` truncates
the post-modulo value.  Concretely, at `deg = 350` the modulo operand
`350 * 65536/360 = 573440/9` is not an integer, and at `deg = 360` the
truncation operand is the post-modulo value `0`, not the raw product
`65536`. -/
theorem c2_truncation_order_counterexample :
    (¬ ∃ z : ℤ, modOperand 350 = (z : ℚ)) ∧
    modOperand 360 = 65536 ∧ truncOperand 360 = 0 := by
  refine ⟨?_, ?_, ?_⟩
  · rintro ⟨z, hz⟩
    rw [modOperand, factor_65536] at hz
    have h9 : (573440 : ℚ) = (z : ℚ) * 9 := by
      field_simp at hz
      linarith
    have h9' : (573440 : ℤ) = z * 9 := by exact_mod_cast h9
    omega
  · norm_num [modOperand, factor_65536]
  · norm_num [truncOperand, modOperand, pyMod, factor_65536, Rat.floor_def]

/-- C2 (amended): in `correct_value`, the modulo 65536 is applied to the
floating-point product FIRST, and the truncation to an integer is
applied to the post-modulo value; for non-negative degrees this
coincides with truncating the product first and then applying modulo
65536 to that truncated integer. -/
theorem c2_mod_then_truncate (deg : ℤ) (hdeg : 0 ≤ deg) :
    correct_value deg = pyInt ((deg : ℚ) * factor_65536) % 65536 := by
  rw [correct_value_eq_floor_emod,
    pyInt_eq_floor (mul_nonneg (by exact_mod_cast hdeg) (by norm_num [factor_65536]))]

theorem c2_mod_then_truncate_witness :
    correct_value 350 = pyInt ((350 : ℚ) * factor_65536) % 65536 :=
  c2_mod_then_truncate 350 (by norm_num)

/-- C3: `old_value 360 = ⌊360 * 182.0⌋ = 65520`,
`correct_value 360 = ⌊360 * 65536/360⌋ mod 65536 = 0`, and the printed
difference for the 360 row is `-65520`. -/
theorem c3_degree_360_row :
    old_value 360 = 65520 ∧ old_value 360 = pyInt ((360 : ℚ) * 182) ∧
    correct_value 360 = 0 ∧
    correct_value 360 = ⌊(360 : ℚ) * (65536 / 360)⌋ % 65536 ∧
    diff 360 = -65520 ∧ formatSignedInt (diff 360) = "-65520" := by
  refine ⟨?_, ?_, ?_, ?_, ?_, ?_⟩ <;>
    (norm_num [old_value, correct_value, diff, formatSignedInt, pyInt, pyMod,
      original_factor, factor_65536, Rat.floor_def]; try decide)

/-- C4: the named color "Pink" (350°) is converted to
`lifx_value = ⌊350 * 65536/360⌋ mod 65536 = 63715`, rendered in
hexadecimal as `0xF8E3`. -/
theorem c4_pink_row :
    lifx_value 350 = 63715 ∧
    lifx_value 350 = ⌊(350 : ℚ) * (65536 / 360)⌋ % 65536 ∧
    lifxHex 350 = "0xF8E3" ∧
    colorRow ("Pink", 350) = "Pink       350° → 63715 (0xF8E3)" := by
  refine ⟨?_, ?_, ?_, ?_⟩ <;>
    norm_num [lifx_value, lifxHex, colorRow, toHex4, hexDigitChar, padRight, padLeft,
      pyInt, pyMod, factor_65536, Rat.floor_def] <;> decide

/-- C5: the named-color table holds exactly the eight pairs Red=0,
Orange=39, Yellow=60, Green=120, Cyan=180, Blue=240, Purple=275,
Pink=350, in that insertion order; each degree lies in [0, 360); and the
eight displayed named-color rows follow that insertion order (they are
the last eight lines of the program output). -/
theorem c5_named_color_table :
    colors.map Prod.fst =
      ["Red", "Orange", "Yellow", "Green", "Cyan", "Blue", "Purple", "Pink"] ∧
    colors.map Prod.snd = [0, 39, 60, 120, 180, 240, 275, 350] ∧
    colors.length = 8 ∧
    (∀ p ∈ colors, 0 ≤ p.2 ∧ p.2 < 360) ∧
    namedColorRows =
      ["Red          0° →     0 (0x0000)",
       "Orange      39° →  7099 (0x1BBB)",
       "Yellow      60° → 10922 (0x2AAA)",
       "Green      120° → 21845 (0x5555)",
       "Cyan       180° → 32768 (0x8000)",
       "Blue       240° → 43690 (0xAAAA)",
       "Purple     275° → 50062 (0xC38E)",
       "Pink       350° → 63715 (0xF8E3)"] ∧
    programOutput.drop 26 = namedColorRows := by
  refine ⟨by decide, by decide, by decide, by decide, ?_, by rfl⟩
  norm_num [namedColorRows, colors, colorRow, lifx_value, lifxHex, toHex4, hexDigitChar,
    padRight, padLeft, pyInt, pyMod, factor_65536, Rat.floor_def]
  decide

/-- C6: every printed difference is rendered with an explicit leading
sign, `+` for non-negative (the degree-0 row prints `+0`) and `-` for
negative; the seven rendered differences are
`+0, +2, +5, +8, +10, +13, -65520`. -/
theorem c6_signed_difference :
    test_degrees.map (fun d => formatSignedInt (diff d)) =
      ["+0", "+2", "+5", "+8", "+10", "+13", "-65520"] ∧
    diff 0 = 0 ∧ formatSignedInt (diff 0) = "+0" ∧
    (∀ d ∈ test_degrees,
      (0 ≤ diff d → (formatSignedInt (diff d)).take 1 = "+") ∧
      (diff d < 0 → (formatSignedInt (diff d)).take 1 = "-")) := by
  refine ⟨?_, ?_, ?_, ?_⟩
  · simp only [test_degrees, List.map]
    norm_num [diff, correct_value, old_value, formatSignedInt, pyInt, pyMod,
      factor_65536, original_factor, Rat.floor_def]
    decide
  · norm_num [diff, correct_value, old_value, pyInt, pyMod,
      factor_65536, original_factor, Rat.floor_def]
  · norm_num [diff, correct_value, old_value, formatSignedInt, pyInt, pyMod,
      factor_65536, original_factor, Rat.floor_def]
    decide
  · intro d hd
    fin_cases hd <;>
      norm_num [diff, correct_value, old_value, formatSignedInt, pyInt, pyMod,
        factor_65536, original_factor, Rat.floor_def] <;> decide

theorem c6_signed_difference_witness :
    (0 ≤ diff 60 → (formatSignedInt (diff 60)).take 1 = "+") ∧
    (diff 60 < 0 → (formatSignedInt (diff 60)).take 1 = "-") :=
  c6_signed_difference.2.2.2 60 (by decide)

/-- C7: the program is deterministic: it consumes nothing from the
ambient world (no arguments, environment, input, clock or randomness),
so any two executions produce identical output. -/
theorem c7_deterministic : ∀ w₁ w₂ : World, run w₁ = run w₂ :=
  fun _ _ => rfl

theorem c7_deterministic_witness :
    run ⟨["--flag"], [("HOME", "/root")], "stdin", 3, 17⟩ =
    run ⟨[], [], "", 99, 4⟩ :=
  c7_deterministic ⟨["--flag"], [("HOME", "/root")], "stdin", 3, 17⟩ ⟨[], [], "", 99, 4⟩

/-- C8: for every degree value the program uses, truncating the product
`d * 65536/360` and then reducing modulo 65536 agrees with reducing the
product modulo 65536 first and then truncating:
`⌊d * 65536/360⌋ mod 65536 = ⌊(d * 65536/360) mod 65536⌋`. -/
theorem c8_trunc_mod_commute :
    ∀ d ∈ usedDegrees,
      ⌊(d : ℚ) * (65536 / 360)⌋ % 65536 =
        ⌊pyMod ((d : ℚ) * (65536 / 360)) 65536⌋ := by
  intro d _
  exact (floor_pyMod _).symm

theorem c8_trunc_mod_commute_witness :
    ⌊(275 : ℚ) * (65536 / 360)⌋ % 65536 =
      ⌊pyMod ((275 : ℚ) * (65536 / 360)) 65536⌋ :=
  c8_trunc_mod_commute 275 (by decide)

/-- C9: for every integer degree `0 ≤ d ≤ 360` the corrected pre-wrap
conversion dominates the old one,
`⌊d * 182.0⌋ ≤ ⌊d * 65536/360⌋`; consequently, for every degree sample
except 360 the printed difference is non-negative. -/
theorem c9_corrected_dominates :
    (∀ d : ℤ, 0 ≤ d → d ≤ 360 →
      ⌊(d : ℚ) * original_factor⌋ ≤ ⌊(d : ℚ) * factor_65536⌋) ∧
    (∀ d ∈ test_degrees, d ≠ 360 → 0 ≤ diff d) := by
  constructor
  · intro d hd _
    apply Int.floor_le_floor
    apply mul_le_mul_of_nonneg_left _ (by exact_mod_cast hd)
    norm_num [original_factor, factor_65536]
  · intro d hd hne
    fin_cases hd <;>
      norm_num [diff, correct_value, old_value, pyInt, pyMod,
        factor_65536, original_factor, Rat.floor_def] at hne ⊢ <;> decide

theorem c9_corrected_dominates_witness :
    ⌊(275 : ℚ) * original_factor⌋ ≤ ⌊(275 : ℚ) * factor_65536⌋ ∧ 0 ≤ diff 300 :=
  ⟨c9_corrected_dominates.1 275 (by norm_num) (by norm_num),
   c9_corrected_dominates.2 300 (by decide) (by decide)⟩

/-- C10: the comparison loop and the named-color loop apply the
identical conversion: for every integer input `x`,
`correct_value x = lifx_value x`, both being
`int((x * factor_65536) % 65536)`. -/
theorem c10_same_conversion : ∀ x : ℤ, correct_value x = lifx_value x :=
  fun _ => rfl

theorem c10_same_conversion_witness : correct_value 123 = lifx_value 123 :=
  c10_same_conversion 123

end VerifyColorConversion
